import Mathlib

/-!
Verification of the JPCImporter upload-and-reconcile workflow
(`JPCImporter.py`): a shallow embedding of the processor's `load_prefs`,
`upload`, `copy_local` and `main` methods, together with theorems about
the retry loop, the policy-XML mutation, the sentinel outcomes and the
local mirror copy.

External collaborators (the Jamf server, the curl transfer tool, the
filesystem and the preference plist) are modelled as oracles supplying
the observations the Python code makes; the network and filesystem
actions the code performs are recorded in an explicit effect trace.
-/

set_option maxHeartbeats 1000000

namespace JPCImporter

/-- A Python value as returned by `upload`: the method returns either the
literal int `0` (the sentinel for "already present" / "no policy"), or the
string result of `findtext("id")` on the policy-update response, which can
itself be Python `None`. -/
inductive PyVal where
  | intVal (n : Int)
  | strVal (s : String)
  | noneVal
deriving DecidableEq, Repr

/-- Python's `pol_id != 0` test in `main`: only the int `0` is equal to `0`;
any string (even `"0"`) and `None` compare unequal. -/
def pyNe0 : PyVal → Bool
  | .intVal n => n != 0
  | .strVal _ => true
  | .noneVal => true

/-- `"{}".format(x)` on an `Optional[str]`: Python formats `None` as the
string `None`. -/
def pyFormat : Option String → String
  | none => "None"
  | some s => s

/-- The exceptions the workflow can raise: `ProcessorError msg` models
autopkglib's `ProcessorError`; `calledProcessError cmd exit` models the
`subprocess.CalledProcessError` escaping `subprocess.check_output`;
`attributeError` models the `AttributeError` raised by `.text = value`
when `find` returned `None`. -/
inductive Err where
  | processorError (msg : String)
  | calledProcessError (cmd : List String) (exit : Nat)
  | attributeError
deriving DecidableEq, Repr

/-- One observable action of the workflow. -/
inductive Effect where
  | getPackage (url : String)
  | curlUpload (cmd : List String)
  | putMetadata (url : String) (data : String)
  | sleepSecs (n : Nat)
  | getPolicy (url : String)
  | putPolicy (url : String)
deriving DecidableEq, Repr

/-- Python's `str.split(sep)` for a one-character separator: the pieces
between occurrences of `c`, empty pieces preserved.  Always returns at
least one piece. -/
def splitOnChar (c : Char) : List Char → List (List Char)
  | [] => [[]]
  | d :: rest =>
    let r := splitOnChar c rest
    if d = c then [] :: r
    else
      match r with
      | [] => [[d]]
      | piece :: pieces => (d :: piece) :: pieces

/-- `os.path.basename`: the part of the path after the last slash. -/
def basename (p : String) : String :=
  String.mk ((splitOnChar '/' p.data).getLastD p.data)

/-- `pkg.split("-")[0]`: the filename prefix before the first dash, the
whole filename when there is no dash. -/
def titleOf (pkg : String) : String :=
  String.mk ((splitOnChar '-' pkg.data).headD [])

/-!  ### The XML document model

`xml.etree.ElementTree` documents, as far as the code uses them: elements
with a tag, a text and a list of children.  `find`/`findtext` resolve a
simple relative path (`"a/b/c"`) by a depth-first search over children
matching each tag in turn, returning the first match; `.text = value`
mutates the text of that first matching element in place. -/

/-- An XML element: tag, text content and child elements.  A Python text
of `None` is represented by `""` (exactly the value `findtext` reports for
an element without text content). -/
inductive XML where
  | elem (tag : String) (text : String) (children : List XML)

namespace XML

def tag : XML → String
  | .elem t _ _ => t

def text : XML → String
  | .elem _ s _ => s

def children : XML → List XML
  | .elem _ _ cs => cs

mutual

/-- `ElementTree.Element.find` on a simple relative path, given as the
list of its tag components.  Depth-first first match with backtracking
over siblings, as `ElementPath.iterfind` produces it. -/
def findPath : XML → List String → Option XML
  | x, [] => some x
  | .elem _ _ cs, p :: rest => findForest cs p rest

/-- Search a list of sibling elements for the first one matching the head
tag under which the rest of the path resolves. -/
def findForest : List XML → String → List String → Option XML
  | [], _, _ => none
  | c :: cs, p, rest =>
    if c.tag = p then
      match findPath c rest with
      | some r => some r
      | none => findForest cs p rest
    else findForest cs p rest

end

/-- `root.findtext(path)` with default `None`: the text of the first
matching element, or `none` when no element matches. -/
def findtext (x : XML) (p : List String) : Option String :=
  (findPath x p).map text

mutual

/-- `root.find(path).text = s`: replace the text of the first element
matching `path`.  Returns `none` when no element matches, in which case
the Python original raises `AttributeError`. -/
def setTextPath : XML → List String → String → Option XML
  | .elem t _ cs, [], s => some (.elem t s cs)
  | .elem t tx cs, p :: rest, s =>
    match setTextForest cs p rest s with
    | some cs2 => some (.elem t tx cs2)
    | none => none

/-- The sibling-list counterpart of `setTextPath`, mutating inside the
first sibling where the whole remaining path resolves. -/
def setTextForest : List XML → String → List String → String → Option (List XML)
  | [], _, _, _ => none
  | c :: cs, p, rest, s =>
    if c.tag = p then
      match setTextPath c rest s with
      | some c2 => some (c2 :: cs)
      | none =>
        match setTextForest cs p rest s with
        | some cs2 => some (c :: cs2)
        | none => none
    else
      match setTextForest cs p rest s with
      | some cs2 => some (c :: cs2)
      | none => none

end

mutual

/-- Erase every text in the document, keeping tags and structure: two
documents with the same `stripText` differ at most in text contents. -/
def stripText : XML → XML
  | .elem t _ cs => .elem t "" (stripForest cs)

def stripForest : List XML → List XML
  | [] => []
  | c :: cs => stripText c :: stripForest cs

end

end XML

/-!  ### Configuration loading (`load_prefs`) -/

/-- Why loading the preference plist failed: the file was missing or
unreadable (`plistlib.load(open(...))` raised), or a required key was
absent (`KeyError`). -/
inductive LoadErr where
  | fileError
  | keyError (k : String)
deriving DecidableEq, Repr

/-- `JPCImporter.load_prefs` (the `autopkg = False` branch, the only one
the constant selects): read `~/Library/Preferences/JPCImporter.plist` and
return `(url, (user, password))`.  The plist is modelled as `none` when
the file is missing or unreadable, and otherwise as a key lookup. -/
def load_prefs (plistFile : Option (String → Option String)) :
    Except LoadErr (String × (String × String)) :=
  match plistFile with
  | none => .error .fileError
  | some prefs =>
    match prefs "url" with
    | none => .error (.keyError "url")
    | some url =>
      match prefs "user" with
      | none => .error (.keyError "user")
      | some user =>
        match prefs "password" with
        | none => .error (.keyError "password")
        | some password => .ok (url, (user, password))

/-!  ### The metadata-update retry loop -/

/-- The body of the `while True` retry loop around the package-metadata
PUT, starting at attempt number `count`.  `put k` is the status code the
server returns to the `k`-th attempt.  The loop breaks on 201, raises
`ProcessorError` once `count > 10`, and otherwise sleeps 20 seconds and
retries.  The loop always terminates by attempt 11, so fuel `12 - count`
(never exhausted) makes the recursion structural. -/
def reconcileGo (put : Nat → Nat) (url data : String) :
    Nat → Nat → List Effect × Except Err Nat
  | _, 0 => ([], .error (.processorError "unreachable: fuel exhausted"))
  | count, fuel + 1 =>
    let st := put count
    if st = 201 then
      ([.putMetadata url data], .ok count)
    else if 10 < count then
      ([.putMetadata url data],
        .error (.processorError ("Package update failed with code: " ++ toString st)))
    else
      let r := reconcileGo put url data (count + 1) fuel
      (.putMetadata url data :: .sleepSecs 20 :: r.1, r.2)

/-- The retry loop as entered by `upload`: `count` starts at 1. -/
def reconcile (put : Nat → Nat) (url data : String) : List Effect × Except Err Nat :=
  reconcileGo put url data 1 11

/-!  ### Policy activation -/

def pathPkgId : List String := ["package_configuration", "packages", "package", "id"]

def pathEnabled : List String := ["general", "enabled"]

def pathPkgName : List String := ["package_configuration", "packages", "package", "name"]

/-- The three in-place mutations `upload` performs on the fetched test
policy document, in source order: package id to `str(packid)`, enabled to
`"false"`, package name to the package filename.  `none` when one of the
`find` calls returns no element, in which case the Python original raises
`AttributeError`. -/
def activateDoc (root : XML) (packid : Option String) (pkg : String) : Option XML :=
  (root.setTextPath pathPkgId (pyFormat packid)).bind fun r1 =>
    (r1.setTextPath pathEnabled "false").bind fun r2 =>
      r2.setTextPath pathPkgName pkg

/-!  ### The upload workflow -/

/-- The `/JSSResource/` API base below the configured server URL. -/
def jssBase (server : String) : String := server ++ "/JSSResource/"

/-- The URL of the package existence-check GET. -/
def checkUrl (server pkg : String) : String :=
  jssBase server ++ "packages/name/" ++ pkg

/-- The curl command line assembled for the file upload, headers in
source order. -/
def curlCommand (server : String) (auth : String × String)
    (pkg pkg_path : String) : List String :=
  ["curl", "-u", auth.1 ++ ":" ++ auth.2, "-s", "-X", "POST",
    server ++ "/dbfileupload",
    "--header", "DESTINATION: 0", "--header", "OBJECT_ID: -1",
    "--header", "FILE_TYPE: 0", "--header", "FILE_NAME: " ++ pkg,
    "--upload-file", pkg_path]

/-- The package-record XML pushed by the metadata update. -/
def metaData (packid : Option String) (today : String) : String :=
  "<package><id>" ++ pyFormat packid ++ "</id>" ++
    "<category>Applications</category>" ++
    "<notes>Built by Autopkg. " ++ today ++ "</notes></package>"

/-- The URL of the package-metadata PUT. -/
def metaUrl (server : String) (packid : Option String) : String :=
  jssBase server ++ "packages/id/" ++ pyFormat packid

/-- The URL of the test-policy lookup GET. -/
def lookupUrl (server title : String) : String :=
  jssBase server ++ "policies/name/" ++ ("TEST-" ++ title)

/-- The URL of the policy-update PUT: addressed by the `general/id` text
of the (mutated) policy document. -/
def policyPutUrl (server : String) (doc : XML) : String :=
  jssBase server ++ "policies/id/" ++ pyFormat (doc.findtext ["general", "id"])

/-- The responses of the external collaborators during one `upload` run:
the status of the existence-check GET, the exit status and parsed output
of the curl transfer, the status of the `k`-th metadata PUT attempt, the
status and parsed body of the policy-lookup GET, and the status and
parsed body of the policy-update PUT.  `today` is the formatted date
`datetime.datetime.now().strftime("(%Y-%m-%d)")`. -/
structure Server where
  checkStatus : Nat
  curlExit : Nat
  curlBody : XML
  putStatus : Nat → Nat
  policyGetStatus : Nat
  policyGetBody : XML
  policyPutStatus : Nat
  policyPutBody : XML
  today : String

/-- `JPCImporter.upload`, as a function of the collaborator responses,
the server URL and credentials from `load_prefs`, and the package path.
Returns the trace of effects performed and either the raised exception or
the returned value (`0`, or `findtext("id")` of the policy response). -/
def upload (srv : Server) (server : String) (auth : String × String)
    (pkg_path : String) : List Effect × Except Err PyVal :=
  let pkg := basename pkg_path
  let title := titleOf pkg
  let e1 : List Effect := [.getPackage (checkUrl server pkg)]
  if srv.checkStatus = 200 then
    (e1, .ok (.intVal 0))
  else
    let curl_url := server ++ "/dbfileupload"
    let command := curlCommand server auth pkg pkg_path
    let e2 := e1 ++ [.curlUpload command]
    if srv.curlExit ≠ 0 then
      (e2, .error (.calledProcessError command srv.curlExit))
    else
      let packid := srv.curlBody.findtext ["id"]
      if packid = some "" then
        (e2, .error (.processorError ("curl failed for url :" ++ curl_url)))
      else
        let rec1 := reconcile srv.putStatus (metaUrl server packid)
          (metaData packid srv.today)
        let e3 := e2 ++ rec1.1
        match rec1.2 with
        | .error e => (e3, .error e)
        | .ok _ =>
          let e4 := e3 ++ [.getPolicy (lookupUrl server title)]
          if srv.policyGetStatus ≠ 200 then
            (e4, .ok (.intVal 0))
          else
            match activateDoc srv.policyGetBody packid pkg with
            | none => (e4, .error .attributeError)
            | some doc =>
              let putUrl := policyPutUrl server doc
              let e5 := e4 ++ [.putPolicy putUrl]
              if srv.policyPutStatus ≠ 201 then
                (e5, .error (.processorError
                  ("Test policy " ++ putUrl ++ " update failed: " ++
                    toString srv.policyPutStatus)))
              else
                let pol_id := srv.policyPutBody.findtext ["id"]
                (e5, .ok (match pol_id with
                  | some s => .strVal s
                  | none => .noneVal))

/-!  ### The local mirror copy (`copy_local`) -/

/-- The filesystem and preference observations `copy_local` makes: the
optional `local_path` preference, the `os.path.exists` oracle, and
whether the `shutil.copy2` call succeeds or raises `IOError`. -/
structure FS where
  local_path : Option String
  pathExists : String → Bool
  copyOk : Bool

/-- `JPCImporter.copy_local`: returns the list of destination files
written.  No `Except` in the result type is itself part of the model: the
method catches `IOError` from `copy2` and always returns normally. -/
def copy_local (fs : FS) (pkg_path : String) : List String :=
  match fs.local_path with
  | none => []
  | some lp =>
    let local_path := lp ++ "Packages/"
    if ¬ fs.pathExists local_path then []
    else
      let pkg := basename pkg_path
      if fs.pathExists (local_path ++ pkg) then []
      else if fs.copyOk then [local_path ++ pkg] else []

/-!  ### `main` -/

/-- The summary record `main` stores in `jpc_importer_summary_result`:
its `data` fields, `policy_id` and `pkg_path`. -/
structure Summary where
  policy_id : PyVal
  pkg_path : String
deriving DecidableEq, Repr

/-- The outcome of one `main` run: the final value of the
`jpc_importer_summary_result` environment key, the network-effect trace,
the destination files written by the local copy, and whether the run
raised. -/
structure MainResult where
  summary : Option Summary
  trace : List Effect
  copies : List String
  outcome : Except Err Unit
deriving Repr

/-- `JPCImporter.main`: clear any pre-existing summary result, check the
package path exists, run `upload`, and on a non-zero return value run
`copy_local` and store the summary.  `summary0` is the value of the
summary key before the run; `pkgExists` is `os.path.exists(pkg_path)`. -/
def main (srv : Server) (fs : FS) (summary0 : Option Summary)
    (pkgExists : Bool) (server : String) (auth : String × String)
    (pkg_path : String) : MainResult :=
  -- del self.env["jpc_importer_summary_result"]: summary0 is discarded here
  let _ := summary0
  if ¬ pkgExists then
    { summary := none, trace := [], copies := [],
      outcome := .error (.processorError ("Package not found: " ++ pkg_path)) }
  else
    let r := upload srv server auth pkg_path
    match r.2 with
    | .error e =>
      { summary := none, trace := r.1, copies := [], outcome := .error e }
    | .ok pol_id =>
      if pyNe0 pol_id then
        { summary := some { policy_id := pol_id, pkg_path := pkg_path },
          trace := r.1, copies := copy_local fs pkg_path, outcome := .ok () }
      else
        { summary := none, trace := r.1, copies := [], outcome := .ok () }

/-!  ### Concrete fixtures used to exercise the theorems -/

/-- The trace of a full run of the retry loop: `n + 1` attempts with a
20-second sleep between consecutive ones. -/
def retryTrace (url data : String) (n : Nat) : List Effect :=
  (List.replicate n [Effect.putMetadata url data, Effect.sleepSecs 20]).flatten
    ++ [Effect.putMetadata url data]

/-- A minimal upload-response envelope carrying a package id. -/
def pkgXml (idText : String) : XML :=
  .elem "package" "" [.elem "id" idText []]

/-- An upload-response envelope with no `id` element at all. -/
def noIdXml : XML :=
  .elem "package" "" [.elem "status" "ok" []]

/-- The example policy document of the specification: package id `5`,
`enabled` `true`, with further fields that activation must leave
untouched. -/
def exPolicy : XML :=
  .elem "policy" "" [
    .elem "general" "" [
      .elem "id" "7" [],
      .elem "name" "TEST-Foo" [],
      .elem "enabled" "true" []],
    .elem "package_configuration" "" [
      .elem "packages" "" [
        .elem "package" "" [
          .elem "id" "5" [],
          .elem "name" "Old-1.0.pkg" []]]],
    .elem "scope" "" [.elem "all_computers" "true" []]]

/-- `exPolicy` after activation with package id `42` and filename
`Foo-2.0.pkg`. -/
def exPolicyOut : XML :=
  .elem "policy" "" [
    .elem "general" "" [
      .elem "id" "7" [],
      .elem "name" "TEST-Foo" [],
      .elem "enabled" "false" []],
    .elem "package_configuration" "" [
      .elem "packages" "" [
        .elem "package" "" [
          .elem "id" "42" [],
          .elem "name" "Foo-2.0.pkg" []]]],
    .elem "scope" "" [.elem "all_computers" "true" []]]

/-- A server whose answers drive one run down the happy path up to the
policy lookup, which misses. -/
def baseSrv : Server :=
  { checkStatus := 404
    curlExit := 0
    curlBody := pkgXml "123"
    putStatus := fun _ => 201
    policyGetStatus := 404
    policyGetBody := exPolicy
    policyPutStatus := 201
    policyPutBody := pkgXml "99"
    today := "(2020-09-24)" }

/-- A filesystem with no `local_path` preference configured. -/
def fsNone : FS :=
  { local_path := none, pathExists := fun _ => true, copyOk := true }

/-- A filesystem where the configured mirror directory does not exist. -/
def fsNoDir : FS :=
  { local_path := some "/mnt/dp/", pathExists := fun _ => false, copyOk := true }

/-- A filesystem where the destination file already exists. -/
def fsDestExists : FS :=
  { local_path := some "/mnt/dp/", pathExists := fun _ => true, copyOk := true }

/-- A filesystem where the mirror directory exists but the destination
file does not, so the copy happens. -/
def fsCopy : FS :=
  { local_path := some "/mnt/dp/"
    pathExists := fun s => s == "/mnt/dp/Packages/"
    copyOk := true }

/-- Metadata-PUT responses failing on attempts 1–10 and succeeding on
attempt 11. -/
def putSucceedAt11 : Nat → Nat := fun k => if k = 11 then 201 else 404

/-- Metadata-PUT responses failing on every attempt. -/
def putAlwaysFail : Nat → Nat := fun _ => 404

def srvRetrySucc : Server := { baseSrv with putStatus := putSucceedAt11 }

def srvRetryFail : Server := { baseSrv with putStatus := putAlwaysFail }

/-- A server whose upload response has no `id` element. -/
def srvNoId : Server := { baseSrv with curlBody := noIdXml }

/-- A server whose upload response has an empty `id` element. -/
def srvEmptyId : Server := { baseSrv with curlBody := pkgXml "" }

/-- A curl transfer that exits with status 23. -/
def srvCurlFail : Server := { baseSrv with curlExit := 23 }

/-- A server that already has the package registered. -/
def srvPresent : Server := { baseSrv with checkStatus := 200 }

/-- A server where the test policy is found but the policy update is
rejected. -/
def srvPutFail : Server :=
  { baseSrv with policyGetStatus := 200, policyPutStatus := 409 }

/-- `exPolicy` after activation with the id `123` carried by
`baseSrv.curlBody` and the filename `Foo-2.0.pkg`. -/
def exPolicyOut123 : XML :=
  .elem "policy" "" [
    .elem "general" "" [
      .elem "id" "7" [],
      .elem "name" "TEST-Foo" [],
      .elem "enabled" "false" []],
    .elem "package_configuration" "" [
      .elem "packages" "" [
        .elem "package" "" [
          .elem "id" "123" [],
          .elem "name" "Foo-2.0.pkg" []]]],
    .elem "scope" "" [.elem "all_computers" "true" []]]

/-- Whether an effect is the policy-update PUT. -/
def isPutPolicy : Effect → Bool
  | .putPolicy _ => true
  | _ => false

/-- Whether a finished `upload` activated a policy, as `main` judges it:
a normal return whose value passes the `pol_id != 0` test. -/
def activatedResult : Except Err PyVal → Bool
  | .ok v => pyNe0 v
  | .error _ => false

/-!  ## Lemmas about the XML mutation -/

namespace XML

theorem setTextPath_tag (x : XML) (p : List String) (s : String) (x2 : XML)
    (h : setTextPath x p s = some x2) : x2.tag = x.tag := by
  cases x with
  | elem t tx cs =>
    cases p with
    | nil =>
      simp only [setTextPath, Option.some.injEq] at h
      subst h; rfl
    | cons a rest =>
      simp only [setTextPath] at h
      cases hf : setTextForest cs a rest s with
      | none => rw [hf] at h; exact absurd h (by simp)
      | some cs2 =>
        rw [hf] at h
        simp only [Option.some.injEq] at h
        subst h; rfl

mutual

theorem setTextPath_isSome (x : XML) (p : List String) (s : String) :
    (setTextPath x p s).isSome = (findPath x p).isSome := by
  cases x with
  | elem t tx cs =>
    cases p with
    | nil => simp [setTextPath, findPath]
    | cons a rest =>
      have hrec := setTextForest_isSome cs a rest s
      simp only [setTextPath, findPath]
      cases hf : setTextForest cs a rest s with
      | none =>
        rw [hf] at hrec
        simp only [Option.isSome] at hrec ⊢
        rw [← hrec]
      | some cs2 =>
        rw [hf] at hrec
        simp only [Option.isSome] at hrec ⊢
        rw [← hrec]

theorem setTextForest_isSome (cs : List XML) (p : String) (rest : List String)
    (s : String) :
    (setTextForest cs p rest s).isSome = (findForest cs p rest).isSome := by
  cases cs with
  | nil => simp [setTextForest, findForest]
  | cons c cs =>
    simp only [setTextForest, findForest]
    by_cases htag : c.tag = p
    · rw [if_pos htag, if_pos htag]
      have hrec := setTextPath_isSome c rest s
      cases hp : setTextPath c rest s with
      | some c2 =>
        rw [hp] at hrec
        cases hq : findPath c rest with
        | some r => simp
        | none => rw [hq] at hrec; simp at hrec
      | none =>
        rw [hp] at hrec
        cases hq : findPath c rest with
        | some r => rw [hq] at hrec; simp at hrec
        | none =>
          have hrec2 := setTextForest_isSome cs p rest s
          cases hf : setTextForest cs p rest s with
          | none => rw [hf] at hrec2; simpa using hrec2
          | some cs2 => rw [hf] at hrec2; simpa using hrec2
    · rw [if_neg htag, if_neg htag]
      have hrec2 := setTextForest_isSome cs p rest s
      cases hf : setTextForest cs p rest s with
      | none => rw [hf] at hrec2; simpa using hrec2
      | some cs2 => rw [hf] at hrec2; simpa using hrec2

end

mutual

theorem setTextPath_findtext_self (x : XML) (p : List String) (s : String)
    (x2 : XML) (h : setTextPath x p s = some x2) : findtext x2 p = some s := by
  cases x with
  | elem t tx cs =>
    cases p with
    | nil =>
      simp only [setTextPath, Option.some.injEq] at h
      subst h
      simp [findtext, findPath, text]
    | cons a rest =>
      simp only [setTextPath] at h
      cases hf : setTextForest cs a rest s with
      | none => rw [hf] at h; exact absurd h (by simp)
      | some cs2 =>
        rw [hf] at h
        simp only [Option.some.injEq] at h
        subst h
        have hrec := setTextForest_find_self cs a rest s cs2 hf
        simpa [findtext, findPath] using hrec

theorem setTextForest_find_self (cs : List XML) (a : String) (rest : List String)
    (s : String) (cs2 : List XML) (h : setTextForest cs a rest s = some cs2) :
    (findForest cs2 a rest).map text = some s := by
  cases cs with
  | nil => simp [setTextForest] at h
  | cons c cs =>
    simp only [setTextForest] at h
    by_cases htag : c.tag = a
    · rw [if_pos htag] at h
      cases hp : setTextPath c rest s with
      | some c2 =>
        rw [hp] at h
        simp only [Option.some.injEq] at h
        subst h
        have htag2 : c2.tag = a := (setTextPath_tag c rest s c2 hp).trans htag
        have hself := setTextPath_findtext_self c rest s c2 hp
        cases hq : findPath c2 rest with
        | some n =>
          simp only [findtext, hq, Option.map] at hself
          simp only [findForest, htag2, if_pos, hq]
          simpa using hself
        | none => simp [findtext, hq] at hself
      | none =>
        rw [hp] at h
        cases hf2 : setTextForest cs a rest s with
        | none => rw [hf2] at h; exact absurd h (by simp)
        | some cs2b =>
          rw [hf2] at h
          simp only [Option.some.injEq] at h
          subst h
          have hnone : findPath c rest = none := by
            have hi := setTextPath_isSome c rest s
            rw [hp] at hi
            cases hq : findPath c rest with
            | none => rfl
            | some r => rw [hq] at hi; simp at hi
          have hrec := setTextForest_find_self cs a rest s cs2b hf2
          simp only [findForest, htag, if_pos, hnone]
          exact hrec
    · rw [if_neg htag] at h
      cases hf2 : setTextForest cs a rest s with
      | none => rw [hf2] at h; exact absurd h (by simp)
      | some cs2b =>
        rw [hf2] at h
        simp only [Option.some.injEq] at h
        subst h
        have hrec := setTextForest_find_self cs a rest s cs2b hf2
        simp only [findForest, htag, if_neg]
        · exact hrec

end

mutual

theorem setTextPath_frame (x : XML) (p : List String) (s : String) (x2 : XML)
    (q : List String) (h : setTextPath x p s = some x2) (hq : q ≠ p) :
    findtext x2 q = findtext x q := by
  cases x with
  | elem t tx cs =>
    cases p with
    | nil =>
      simp only [setTextPath, Option.some.injEq] at h
      subst h
      cases q with
      | nil => exact absurd rfl hq
      | cons b qrest => simp [findtext, findPath]
    | cons a rest =>
      simp only [setTextPath] at h
      cases hf : setTextForest cs a rest s with
      | none => rw [hf] at h; exact absurd h (by simp)
      | some cs2 =>
        rw [hf] at h
        simp only [Option.some.injEq] at h
        subst h
        cases q with
        | nil => simp [findtext, findPath, text]
        | cons b qrest =>
          have hbq : b ≠ a ∨ qrest ≠ rest := by
            by_contra hc
            push_neg at hc
            exact hq (by rw [hc.1, hc.2])
          have hrec := setTextForest_frame cs a rest s cs2 b qrest hf hbq
          simpa [findtext, findPath] using hrec

theorem setTextForest_frame (cs : List XML) (a : String) (rest : List String)
    (s : String) (cs2 : List XML) (q : String) (qrest : List String)
    (h : setTextForest cs a rest s = some cs2) (hq : q ≠ a ∨ qrest ≠ rest) :
    (findForest cs2 q qrest).map text = (findForest cs q qrest).map text := by
  cases cs with
  | nil => simp [setTextForest] at h
  | cons c cs =>
    simp only [setTextForest] at h
    by_cases htag : c.tag = a
    · rw [if_pos htag] at h
      cases hp : setTextPath c rest s with
      | some c2 =>
        rw [hp] at h
        simp only [Option.some.injEq] at h
        subst h
        have htag2 : c2.tag = c.tag := setTextPath_tag c rest s c2 hp
        by_cases hcq : c.tag = q
        · have hqa : q = a := hcq.symm.trans htag
          have hqr : qrest ≠ rest := by
            cases hq with
            | inl h1 => exact absurd hqa h1
            | inr h2 => exact h2
          have hframe := setTextPath_frame c rest s c2 qrest hp hqr
          simp only [findtext] at hframe
          have htag2q : c2.tag = q := htag2.trans hcq
          cases hq1 : findPath c qrest with
          | some n =>
            rw [hq1] at hframe
            cases hq2 : findPath c2 qrest with
            | none => rw [hq2] at hframe; simp at hframe
            | some n2 =>
              rw [hq2] at hframe
              simp only [findForest, htag2q, hcq, if_pos, hq1, hq2]
              simpa using hframe
          | none =>
            rw [hq1] at hframe
            cases hq2 : findPath c2 qrest with
            | some n2 => rw [hq2] at hframe; simp at hframe
            | none =>
              rw [hq2] at hframe
              simp only [findForest, htag2q, hcq, if_pos, hq1, hq2]
        · have htag2q : ¬ c2.tag = q := by rw [htag2]; exact hcq
          simp only [findForest, if_neg htag2q, if_neg hcq]
      | none =>
        rw [hp] at h
        cases hf2 : setTextForest cs a rest s with
        | none => rw [hf2] at h; exact absurd h (by simp)
        | some cs2b =>
          rw [hf2] at h
          simp only [Option.some.injEq] at h
          subst h
          have hrec := setTextForest_frame cs a rest s cs2b q qrest hf2 hq
          by_cases hcq : c.tag = q
          · cases hq1 : findPath c qrest with
            | some n => simp only [findForest, hcq, if_pos, hq1]
            | none =>
              simp only [findForest, hcq, if_pos, hq1]
              exact hrec
          · simp only [findForest, if_neg hcq]
            exact hrec
    · rw [if_neg htag] at h
      cases hf2 : setTextForest cs a rest s with
      | none => rw [hf2] at h; exact absurd h (by simp)
      | some cs2b =>
        rw [hf2] at h
        simp only [Option.some.injEq] at h
        subst h
        have hrec := setTextForest_frame cs a rest s cs2b q qrest hf2 hq
        by_cases hcq : c.tag = q
        · cases hq1 : findPath c qrest with
          | some n => simp only [findForest, hcq, if_pos, hq1]
          | none =>
            simp only [findForest, hcq, if_pos, hq1]
            exact hrec
        · simp only [findForest, if_neg hcq]
          exact hrec

end

mutual

theorem setTextPath_stripText (x : XML) (p : List String) (s : String) (x2 : XML)
    (h : setTextPath x p s = some x2) : stripText x2 = stripText x := by
  cases x with
  | elem t tx cs =>
    cases p with
    | nil =>
      simp only [setTextPath, Option.some.injEq] at h
      subst h
      simp [stripText]
    | cons a rest =>
      simp only [setTextPath] at h
      cases hf : setTextForest cs a rest s with
      | none => rw [hf] at h; exact absurd h (by simp)
      | some cs2 =>
        rw [hf] at h
        simp only [Option.some.injEq] at h
        subst h
        have hrec := setTextForest_stripForest cs a rest s cs2 hf
        simp [stripText, hrec]

theorem setTextForest_stripForest (cs : List XML) (a : String)
    (rest : List String) (s : String) (cs2 : List XML)
    (h : setTextForest cs a rest s = some cs2) :
    stripForest cs2 = stripForest cs := by
  cases cs with
  | nil => simp [setTextForest] at h
  | cons c cs =>
    simp only [setTextForest] at h
    by_cases htag : c.tag = a
    · rw [if_pos htag] at h
      cases hp : setTextPath c rest s with
      | some c2 =>
        rw [hp] at h
        simp only [Option.some.injEq] at h
        subst h
        have hrec := setTextPath_stripText c rest s c2 hp
        simp [stripForest, hrec]
      | none =>
        rw [hp] at h
        cases hf2 : setTextForest cs a rest s with
        | none => rw [hf2] at h; exact absurd h (by simp)
        | some cs2b =>
          rw [hf2] at h
          simp only [Option.some.injEq] at h
          subst h
          have hrec := setTextForest_stripForest cs a rest s cs2b hf2
          simp [stripForest, hrec]
    · rw [if_neg htag] at h
      cases hf2 : setTextForest cs a rest s with
      | none => rw [hf2] at h; exact absurd h (by simp)
      | some cs2b =>
        rw [hf2] at h
        simp only [Option.some.injEq] at h
        subst h
        have hrec := setTextForest_stripForest cs a rest s cs2b hf2
        simp [stripForest, hrec]

end

end XML

/-!  ## String and retry-loop lemmas -/

/-- Two string concatenations whose left parts start with different
characters are different strings. -/
theorem string_append_ne (c1 c2 : Char) (s1 s2 a b : String)
    (h1 : s1.data.head? = some c1) (h2 : s2.data.head? = some c2)
    (hc : c1 ≠ c2) : s1 ++ a ≠ s2 ++ b := by
  intro heq
  have hd : s1.data ++ a.data = s2.data ++ b.data := by
    have h3 := congrArg String.data heq
    rwa [String.data_append, String.data_append] at h3
  cases hs1 : s1.data with
  | nil => rw [hs1] at h1; simp at h1
  | cons d1 u1 =>
    cases hs2 : s2.data with
    | nil => rw [hs2] at h2; simp at h2
    | cons d2 u2 =>
      rw [hs1] at h1
      rw [hs2] at h2
      simp only [List.head?, Option.some.injEq] at h1 h2
      rw [hs1, hs2] at hd
      simp only [List.cons_append, List.cons.injEq] at hd
      exact hc (by rw [← h1, ← h2, hd.1])

theorem reconcileGo_success (put : Nat → Nat) (url data : String) :
    ∀ (n count : Nat), count + n = 11 →
      (∀ k, count ≤ k → k ≤ 10 → put k ≠ 201) → put 11 = 201 →
      reconcileGo put url data count (n + 1) = (retryTrace url data n, .ok 11) := by
  intro n
  induction n with
  | zero =>
    intro count hc hfail hok
    have hce : count = 11 := by omega
    subst hce
    simp [reconcileGo, hok, retryTrace]
  | succ m ih =>
    intro count hc hfail hok
    have hcle : count ≤ 10 := by omega
    have hne : put count ≠ 201 := hfail count le_rfl hcle
    have hrec := ih (count + 1) (by omega) (fun k hk1 hk2 => hfail k (by omega) hk2) hok
    simp only [reconcileGo, if_neg hne, if_neg (by omega : ¬ 10 < count)]
    simp only [reconcileGo] at hrec
    rw [hrec]
    simp [retryTrace, List.replicate_succ]

theorem reconcileGo_fail (put : Nat → Nat) (url data : String) :
    ∀ (n count : Nat), count + n = 11 →
      (∀ k, count ≤ k → k ≤ 11 → put k ≠ 201) →
      reconcileGo put url data count (n + 1) =
        (retryTrace url data n,
         .error (.processorError
           ("Package update failed with code: " ++ toString (put 11)))) := by
  intro n
  induction n with
  | zero =>
    intro count hc hfail
    have hce : count = 11 := by omega
    subst hce
    have hne : put 11 ≠ 201 := hfail 11 le_rfl le_rfl
    simp [reconcileGo, if_neg hne, retryTrace]
  | succ m ih =>
    intro count hc hfail
    have hcle : count ≤ 10 := by omega
    have hne : put count ≠ 201 := hfail count le_rfl (by omega)
    have hrec := ih (count + 1) (by omega) (fun k hk1 hk2 => hfail k (by omega) hk2)
    simp only [reconcileGo, if_neg hne, if_neg (by omega : ¬ 10 < count)]
    simp only [reconcileGo] at hrec
    rw [hrec]
    simp [retryTrace, List.replicate_succ]

theorem reconcileGo_trace_mem (put : Nat → Nat) (url data : String) :
    ∀ (fuel count : Nat) (e : Effect), e ∈ (reconcileGo put url data count fuel).1 →
      e = .putMetadata url data ∨ e = .sleepSecs 20 := by
  intro fuel
  induction fuel with
  | zero => intro count e he; simp [reconcileGo] at he
  | succ m ih =>
    intro count e he
    simp only [reconcileGo] at he
    by_cases h1 : put count = 201
    · rw [if_pos h1] at he
      simp at he
      left; exact he
    · rw [if_neg h1] at he
      by_cases h2 : 10 < count
      · rw [if_pos h2] at he
        simp at he
        left; exact he
      · rw [if_neg h2] at he
        simp only [List.mem_cons] at he
        rcases he with h | h | h
        · left; exact h
        · right; exact h
        · exact ih (count + 1) e h

theorem reconcileGo_result_shape (put : Nat → Nat) (url data : String) :
    ∀ (fuel count : Nat), count + fuel = 12 → count ≤ 11 →
      (∃ k : Nat, (reconcileGo put url data count fuel).2 = .ok k) ∨
      (∃ st : Nat, (reconcileGo put url data count fuel).2 =
        .error (.processorError
          ("Package update failed with code: " ++ toString st))) := by
  intro fuel
  induction fuel with
  | zero => intro count hc hle; omega
  | succ m ih =>
    intro count hc hle
    simp only [reconcileGo]
    by_cases h1 : put count = 201
    · rw [if_pos h1]
      left; exact ⟨count, rfl⟩
    · rw [if_neg h1]
      by_cases h2 : 10 < count
      · rw [if_pos h2]
        right; exact ⟨put count, rfl⟩
      · rw [if_neg h2]
        have hr := ih (count + 1) (by omega) (by omega)
        simpa using hr

/-- Every run of the retry loop as `upload` enters it either returns a
successful attempt number or raises the metadata-update error. -/
theorem reconcile_result_shape (put : Nat → Nat) (url data : String) :
    (∃ k : Nat, (reconcile put url data).2 = .ok k) ∨
    (∃ st : Nat, (reconcile put url data).2 =
      .error (.processorError
        ("Package update failed with code: " ++ toString st))) :=
  reconcileGo_result_shape put url data 11 1 (by omega) (by omega)

/-- The retry loop when the first ten attempts fail and the eleventh
succeeds. -/
theorem reconcile_success (put : Nat → Nat) (url data : String)
    (h1 : ∀ k, 1 ≤ k → k ≤ 10 → put k ≠ 201) (h2 : put 11 = 201) :
    reconcile put url data = (retryTrace url data 10, .ok 11) := by
  have h := reconcileGo_success put url data 10 1 (by omega) h1 h2
  unfold reconcile
  exact h

/-- The retry loop when all eleven attempts fail. -/
theorem reconcile_fail (put : Nat → Nat) (url data : String)
    (h1 : ∀ k, 1 ≤ k → k ≤ 11 → put k ≠ 201) :
    reconcile put url data =
      (retryTrace url data 10,
       .error (.processorError
         ("Package update failed with code: " ++ toString (put 11)))) := by
  have h := reconcileGo_fail put url data 10 1 (by omega) h1
  unfold reconcile
  exact h

/-!  ## Lemmas about the upload workflow -/

theorem upload_present (srv : Server) (server : String) (auth : String × String)
    (pkg_path : String) (h : srv.checkStatus = 200) :
    upload srv server auth pkg_path =
      ([.getPackage (checkUrl server (basename pkg_path))], .ok (.intVal 0)) := by
  simp [upload, h]

theorem upload_no_policy (srv : Server) (server : String) (auth : String × String)
    (pkg_path : String) (m : Nat)
    (h1 : srv.checkStatus ≠ 200) (h2 : srv.curlExit = 0)
    (h3 : srv.curlBody.findtext ["id"] ≠ some "")
    (h4 : (reconcile srv.putStatus (metaUrl server (srv.curlBody.findtext ["id"]))
            (metaData (srv.curlBody.findtext ["id"]) srv.today)).2 = .ok m)
    (h5 : srv.policyGetStatus ≠ 200) :
    upload srv server auth pkg_path =
      ([Effect.getPackage (checkUrl server (basename pkg_path)),
        Effect.curlUpload (curlCommand server auth (basename pkg_path) pkg_path)] ++
        (reconcile srv.putStatus (metaUrl server (srv.curlBody.findtext ["id"]))
          (metaData (srv.curlBody.findtext ["id"]) srv.today)).1 ++
        [Effect.getPolicy (lookupUrl server (titleOf (basename pkg_path)))],
       .ok (.intVal 0)) := by
  simp only [upload, if_neg h1, h2]
  rw [if_neg (by simp)]
  rw [if_neg h3, h4]
  rw [if_pos h5]
  simp


theorem upload_curl_fail (srv : Server) (server : String) (auth : String × String)
    (pkg_path : String) (h1 : srv.checkStatus ≠ 200) (h2 : srv.curlExit ≠ 0) :
    upload srv server auth pkg_path =
      ([Effect.getPackage (checkUrl server (basename pkg_path)),
        Effect.curlUpload (curlCommand server auth (basename pkg_path) pkg_path)],
       .error (.calledProcessError
         (curlCommand server auth (basename pkg_path) pkg_path) srv.curlExit)) := by
  simp only [upload, if_neg h1]
  rw [if_pos h2]
  simp

theorem upload_empty_id (srv : Server) (server : String) (auth : String × String)
    (pkg_path : String) (h1 : srv.checkStatus ≠ 200) (h2 : srv.curlExit = 0)
    (h3 : srv.curlBody.findtext ["id"] = some "") :
    upload srv server auth pkg_path =
      ([Effect.getPackage (checkUrl server (basename pkg_path)),
        Effect.curlUpload (curlCommand server auth (basename pkg_path) pkg_path)],
       .error (.processorError
         ("curl failed for url :" ++ (server ++ "/dbfileupload")))) := by
  simp only [upload, if_neg h1, h2]
  rw [if_neg (by simp)]
  rw [if_pos h3]
  simp

theorem upload_curl_mem (srv : Server) (server : String) (auth : String × String)
    (pkg_path : String) (h1 : srv.checkStatus ≠ 200) :
    Effect.curlUpload (curlCommand server auth (basename pkg_path) pkg_path) ∈
      (upload srv server auth pkg_path).1 := by
  simp only [upload, if_neg h1]
  by_cases h2 : srv.curlExit ≠ 0
  · rw [if_pos h2]; simp
  · rw [if_neg h2]
    by_cases h3 : srv.curlBody.findtext ["id"] = some ""
    · rw [if_pos h3]; simp
    · rw [if_neg h3]
      cases hr : (reconcile srv.putStatus (metaUrl server (srv.curlBody.findtext ["id"]))
          (metaData (srv.curlBody.findtext ["id"]) srv.today)).2 with
      | error e => simp
      | ok k =>
        dsimp only []
        by_cases h5 : srv.policyGetStatus ≠ 200
        · rw [if_pos h5]; simp
        · rw [if_neg h5]
          cases hact : activateDoc srv.policyGetBody (srv.curlBody.findtext ["id"])
              (basename pkg_path) with
          | none => simp
          | some doc =>
            dsimp only []
            by_cases h7 : srv.policyPutStatus ≠ 201
            · rw [if_pos h7]; simp
            · rw [if_neg h7]; simp

theorem upload_policy_put_fail (srv : Server) (server : String) (auth : String × String)
    (pkg_path : String) (m : Nat) (doc : XML)
    (h1 : srv.checkStatus ≠ 200) (h2 : srv.curlExit = 0)
    (h3 : srv.curlBody.findtext ["id"] ≠ some "")
    (h4 : (reconcile srv.putStatus (metaUrl server (srv.curlBody.findtext ["id"]))
            (metaData (srv.curlBody.findtext ["id"]) srv.today)).2 = .ok m)
    (h5 : srv.policyGetStatus = 200)
    (h6 : activateDoc srv.policyGetBody (srv.curlBody.findtext ["id"])
            (basename pkg_path) = some doc)
    (h7 : srv.policyPutStatus ≠ 201) :
    upload srv server auth pkg_path =
      ([Effect.getPackage (checkUrl server (basename pkg_path)),
        Effect.curlUpload (curlCommand server auth (basename pkg_path) pkg_path)] ++
        (reconcile srv.putStatus (metaUrl server (srv.curlBody.findtext ["id"]))
          (metaData (srv.curlBody.findtext ["id"]) srv.today)).1 ++
        [Effect.getPolicy (lookupUrl server (titleOf (basename pkg_path))),
         Effect.putPolicy (policyPutUrl server doc)],
       .error (.processorError
         ("Test policy " ++ policyPutUrl server doc ++ " update failed: " ++
           toString srv.policyPutStatus))) := by
  simp only [upload, if_neg h1, h2]
  rw [if_neg (by simp)]
  rw [if_neg h3, h4]
  rw [if_neg (by simp [h5])]
  rw [h6]
  dsimp only []
  rw [if_pos h7]
  simp

theorem upload_reconcile_fail (srv : Server) (server : String)
    (auth : String × String) (pkg_path : String) (e : Err)
    (h1 : srv.checkStatus ≠ 200) (h2 : srv.curlExit = 0)
    (h3 : srv.curlBody.findtext ["id"] ≠ some "")
    (h4 : (reconcile srv.putStatus (metaUrl server (srv.curlBody.findtext ["id"]))
            (metaData (srv.curlBody.findtext ["id"]) srv.today)).2 = .error e) :
    upload srv server auth pkg_path =
      ([Effect.getPackage (checkUrl server (basename pkg_path)),
        Effect.curlUpload (curlCommand server auth (basename pkg_path) pkg_path)] ++
        (reconcile srv.putStatus (metaUrl server (srv.curlBody.findtext ["id"]))
          (metaData (srv.curlBody.findtext ["id"]) srv.today)).1,
       .error e) := by
  simp only [upload, if_neg h1, h2]
  rw [if_neg (by simp)]
  rw [if_neg h3, h4]
  simp

theorem test_policy_msg_ne_curl (u v b : String) :
    ("Test policy " ++ u ++ " update failed: " ++ v) ≠
      ("curl failed for url :" ++ b) := by
  rw [String.append_assoc, String.append_assoc]
  exact string_append_ne 'T' 'c' _ _ _ _ rfl rfl (by decide)

theorem package_msg_ne_curl (u b : String) :
    ("Package update failed with code: " ++ u) ≠ ("curl failed for url :" ++ b) :=
  string_append_ne 'P' 'c' _ _ _ _ rfl rfl (by decide)

theorem upload_no_upload_error (srv : Server) (server : String)
    (auth : String × String) (pkg_path : String)
    (h2 : srv.curlExit = 0) (h3 : srv.curlBody.findtext ["id"] ≠ some "") :
    (∀ (cmd : List String) (e : Nat),
      (upload srv server auth pkg_path).2 ≠ .error (.calledProcessError cmd e)) ∧
    (upload srv server auth pkg_path).2 ≠
      .error (.processorError
        ("curl failed for url :" ++ (server ++ "/dbfileupload"))) := by
  by_cases h1 : srv.checkStatus = 200
  · rw [upload_present srv server auth pkg_path h1]
    constructor
    · intro cmd e; simp
    · simp
  · simp only [upload, if_neg h1, h2]
    rw [if_neg (by simp)]
    rw [if_neg h3]
    rcases reconcile_result_shape srv.putStatus
        (metaUrl server (srv.curlBody.findtext ["id"]))
        (metaData (srv.curlBody.findtext ["id"]) srv.today) with ⟨k, hk⟩ | ⟨st, hst⟩
    · rw [hk]
      dsimp only []
      by_cases h5 : srv.policyGetStatus ≠ 200
      · rw [if_pos h5]
        constructor
        · intro cmd e; simp
        · simp
      · rw [if_neg h5]
        cases hact : activateDoc srv.policyGetBody (srv.curlBody.findtext ["id"])
            (basename pkg_path) with
        | none =>
          constructor
          · intro cmd e; simp
          · simp
        | some doc =>
          dsimp only []
          by_cases h7 : srv.policyPutStatus ≠ 201
          · rw [if_pos h7]
            constructor
            · intro cmd e; simp
            · simp only [ne_eq, Prod.snd]
              intro hcontra
              simp only [Except.error.injEq, Err.processorError.injEq] at hcontra
              exact test_policy_msg_ne_curl (policyPutUrl server doc)
                (toString srv.policyPutStatus) (server ++ "/dbfileupload") hcontra
          · rw [if_neg h7]
            constructor
            · intro cmd e; simp
            · simp
    · rw [hst]
      dsimp only []
      constructor
      · intro cmd e; simp
      · simp only [ne_eq]
        intro hcontra
        simp only [Except.error.injEq, Err.processorError.injEq] at hcontra
        exact package_msg_ne_curl (toString st) (server ++ "/dbfileupload") hcontra

/-!  ## The claims -/

/-- Claim C1: the package-metadata PUT is retried with a fixed 20-second
delay between attempts, any status other than 201 being transient; if the
first 10 attempts fail and the 11th returns 201 the workflow succeeds,
and if all 11 attempts fail the loop makes exactly 11 attempts and raises
a fatal error carrying the last status code. -/
theorem claim1_metadata_retry (put : Nat → Nat) (url data : String)
    (srv : Server) (server : String) (auth : String × String)
    (pkg_path : String) :
    ((∀ k, 1 ≤ k → k ≤ 10 → put k ≠ 201) → put 11 = 201 →
      reconcile put url data = (retryTrace url data 10, .ok 11)) ∧
    ((∀ k, 1 ≤ k → k ≤ 11 → put k ≠ 201) →
      reconcile put url data =
        (retryTrace url data 10,
         .error (.processorError
           ("Package update failed with code: " ++ toString (put 11))))) ∧
    (srv.checkStatus ≠ 200 → srv.curlExit = 0 →
      srv.curlBody.findtext ["id"] ≠ some "" →
      (∀ k, 1 ≤ k → k ≤ 10 → srv.putStatus k ≠ 201) → srv.putStatus 11 = 201 →
      srv.policyGetStatus ≠ 200 →
      (upload srv server auth pkg_path).2 = .ok (.intVal 0)) ∧
    (srv.checkStatus ≠ 200 → srv.curlExit = 0 →
      srv.curlBody.findtext ["id"] ≠ some "" →
      (∀ k, 1 ≤ k → k ≤ 11 → srv.putStatus k ≠ 201) →
      (upload srv server auth pkg_path).2 =
        .error (.processorError
          ("Package update failed with code: " ++ toString (srv.putStatus 11)))) := by
  refine ⟨fun h1 h2 => reconcile_success put url data h1 h2,
    fun h1 => reconcile_fail put url data h1, ?_, ?_⟩
  · intro h1 h2 h3 h4 h5 h6
    have hrec : (reconcile srv.putStatus
        (metaUrl server (srv.curlBody.findtext ["id"]))
        (metaData (srv.curlBody.findtext ["id"]) srv.today)).2 = .ok 11 := by
      rw [reconcile_success srv.putStatus _ _ h4 h5]
    rw [upload_no_policy srv server auth pkg_path 11 h1 h2 h3 hrec h6]
  · intro h1 h2 h3 h4
    have hrec : (reconcile srv.putStatus
        (metaUrl server (srv.curlBody.findtext ["id"]))
        (metaData (srv.curlBody.findtext ["id"]) srv.today)).2 =
        .error (.processorError
          ("Package update failed with code: " ++ toString (srv.putStatus 11))) := by
      rw [reconcile_fail srv.putStatus _ _ h4]
    rw [upload_reconcile_fail srv server auth pkg_path _ h1 h2 h3 hrec]

/-- Witness for C1 at concrete retry schedules: ten failures then
success, and eleven failures. -/
theorem claim1_metadata_retry_witness :
    reconcile putSucceedAt11 "u" "d" = (retryTrace "u" "d" 10, .ok 11) ∧
    reconcile putAlwaysFail "u" "d" =
      (retryTrace "u" "d" 10,
       .error (.processorError
         ("Package update failed with code: " ++ toString (putAlwaysFail 11)))) ∧
    (upload srvRetrySucc "https://jamf.example.com" ("user", "pw")
      "/tmp/Foo-2.0.pkg").2 = .ok (.intVal 0) ∧
    (upload srvRetryFail "https://jamf.example.com" ("user", "pw")
      "/tmp/Foo-2.0.pkg").2 =
      .error (.processorError
        ("Package update failed with code: " ++ toString (putAlwaysFail 11))) := by
  have h10 : ∀ k, 1 ≤ k → k ≤ 10 → putSucceedAt11 k ≠ 201 := by
    intro k hk1 hk2
    have hne : k ≠ 11 := by omega
    simp [putSucceedAt11, hne]
  have h11 : ∀ k, 1 ≤ k → k ≤ 11 → putAlwaysFail k ≠ 201 := by
    intro k _ _
    simp [putAlwaysFail]
  refine ⟨?_, ?_, ?_, ?_⟩
  · exact (claim1_metadata_retry putSucceedAt11 "u" "d" srvRetrySucc
      "https://jamf.example.com" ("user", "pw") "/tmp/Foo-2.0.pkg").1 h10 (by decide)
  · exact (claim1_metadata_retry putAlwaysFail "u" "d" srvRetryFail
      "https://jamf.example.com" ("user", "pw") "/tmp/Foo-2.0.pkg").2.1 h11
  · exact (claim1_metadata_retry putSucceedAt11 "u" "d" srvRetrySucc
      "https://jamf.example.com" ("user", "pw") "/tmp/Foo-2.0.pkg").2.2.1
      (by decide) rfl (by decide) h10 (by decide) (by decide)
  · exact (claim1_metadata_retry putAlwaysFail "u" "d" srvRetryFail
      "https://jamf.example.com" ("user", "pw") "/tmp/Foo-2.0.pkg").2.2.2
      (by decide) rfl (by decide) h11

/-- Claim C4: a 200 on the existence check terminates the workflow
successfully with no upload (the trace is just the single GET); any other
status proceeds to the curl upload. -/
theorem claim4_existence_check (srv : Server) (server : String)
    (auth : String × String) (pkg_path : String) :
    (srv.checkStatus = 200 →
      upload srv server auth pkg_path =
        ([Effect.getPackage (checkUrl server (basename pkg_path))],
         .ok (.intVal 0))) ∧
    (srv.checkStatus ≠ 200 →
      Effect.curlUpload (curlCommand server auth (basename pkg_path) pkg_path) ∈
        (upload srv server auth pkg_path).1) :=
  ⟨fun h => upload_present srv server auth pkg_path h,
   fun h => upload_curl_mem srv server auth pkg_path h⟩

/-- Witness for C4: a server reporting the package present performs no
upload; one reporting it absent runs curl. -/
theorem claim4_existence_check_witness :
    upload srvPresent "https://jamf.example.com" ("user", "pw") "/tmp/Foo-2.0.pkg" =
      ([Effect.getPackage (checkUrl "https://jamf.example.com" "Foo-2.0.pkg")],
       .ok (.intVal 0)) ∧
    Effect.curlUpload (curlCommand "https://jamf.example.com" ("user", "pw")
        "Foo-2.0.pkg" "/tmp/Foo-2.0.pkg") ∈
      (upload baseSrv "https://jamf.example.com" ("user", "pw") "/tmp/Foo-2.0.pkg").1 := by
  constructor
  · have h := (claim4_existence_check srvPresent "https://jamf.example.com"
      ("user", "pw") "/tmp/Foo-2.0.pkg").1 rfl
    simpa using h
  · have h := (claim4_existence_check baseSrv "https://jamf.example.com"
      ("user", "pw") "/tmp/Foo-2.0.pkg").2 (by decide)
    simpa using h

/-- Claim C7: configuration loading fails exactly when the preference
file is missing or unreadable, or one of the required keys `url`, `user`,
`password` is absent. -/
theorem claim7_config_errors (prefs : String → Option String) :
    load_prefs none = .error .fileError ∧
    (load_prefs (some prefs)).isOk =
      ((prefs "url").isSome && (prefs "user").isSome &&
        (prefs "password").isSome) := by
  constructor
  · rfl
  · cases h1 : prefs "url" with
    | none => simp [load_prefs, h1, Except.isOk, Except.toBool]
    | some u =>
      cases h2 : prefs "user" with
      | none => simp [load_prefs, h1, h2, Except.isOk, Except.toBool]
      | some us =>
        cases h3 : prefs "password" with
        | none => simp [load_prefs, h1, h2, h3, Except.isOk, Except.toBool]
        | some pw => simp [load_prefs, h1, h2, h3, Except.isOk, Except.toBool]


/-- Counterexample to C2 as stated: a server whose upload response has no
`id` element at all.  The claim says this must raise the upload error,
but `findtext` returns Python `None` and the `packid == ""` test is
false, so the run proceeds and here finishes successfully. -/
theorem claim2_upload_error_counterexample :
    srvNoId.curlExit = 0 ∧
    srvNoId.curlBody.findtext ["id"] = none ∧
    (upload srvNoId "https://jamf.example.com" ("user", "pw")
      "/tmp/Foo-2.0.pkg").2 = .ok (.intVal 0) :=
  ⟨rfl, rfl, rfl⟩

/-- Claim C2 as amended: the upload stage raises exactly when the curl
transfer exits non-zero (a `CalledProcessError` whose command references
the upload endpoint) or when the `id` field is present but empty (a
`ProcessorError` whose message references the upload endpoint); when the
exit is zero and the `id` field is not the empty string — including when
it is absent — neither of those errors is raised. -/
theorem claim2_upload_error (srv : Server) (server : String)
    (auth : String × String) (pkg_path : String)
    (hchk : srv.checkStatus ≠ 200) :
    (srv.curlExit ≠ 0 →
      (upload srv server auth pkg_path).2 =
        .error (.calledProcessError
          (curlCommand server auth (basename pkg_path) pkg_path) srv.curlExit) ∧
      (server ++ "/dbfileupload") ∈
        curlCommand server auth (basename pkg_path) pkg_path) ∧
    (srv.curlExit = 0 → srv.curlBody.findtext ["id"] = some "" →
      (upload srv server auth pkg_path).2 =
        .error (.processorError
          ("curl failed for url :" ++ (server ++ "/dbfileupload")))) ∧
    (srv.curlExit = 0 → srv.curlBody.findtext ["id"] ≠ some "" →
      (∀ (cmd : List String) (e : Nat),
        (upload srv server auth pkg_path).2 ≠
          .error (.calledProcessError cmd e)) ∧
      (upload srv server auth pkg_path).2 ≠
        .error (.processorError
          ("curl failed for url :" ++ (server ++ "/dbfileupload")))) := by
  refine ⟨?_, ?_, ?_⟩
  · intro h2
    constructor
    · rw [upload_curl_fail srv server auth pkg_path hchk h2]
    · simp [curlCommand]
  · intro h2 h3
    rw [upload_empty_id srv server auth pkg_path hchk h2 h3]
  · intro h2 h3
    exact upload_no_upload_error srv server auth pkg_path h2 h3

/-- Witness for the amended C2 at concrete servers: a failing transfer, an
empty id and a normal id. -/
theorem claim2_upload_error_witness :
    (upload srvCurlFail "https://jamf.example.com" ("user", "pw")
      "/tmp/Foo-2.0.pkg").2 =
      .error (.calledProcessError
        (curlCommand "https://jamf.example.com" ("user", "pw") "Foo-2.0.pkg"
          "/tmp/Foo-2.0.pkg") 23) ∧
    ("https://jamf.example.com" ++ "/dbfileupload") ∈
      curlCommand "https://jamf.example.com" ("user", "pw") "Foo-2.0.pkg"
        "/tmp/Foo-2.0.pkg" ∧
    (upload srvEmptyId "https://jamf.example.com" ("user", "pw")
      "/tmp/Foo-2.0.pkg").2 =
      .error (.processorError
        ("curl failed for url :" ++
          ("https://jamf.example.com" ++ "/dbfileupload"))) ∧
    (upload baseSrv "https://jamf.example.com" ("user", "pw")
      "/tmp/Foo-2.0.pkg").2 ≠
      .error (.processorError
        ("curl failed for url :" ++
          ("https://jamf.example.com" ++ "/dbfileupload"))) := by
  have hfail := (claim2_upload_error srvCurlFail "https://jamf.example.com"
    ("user", "pw") "/tmp/Foo-2.0.pkg" (by decide)).1 (by decide)
  have hempty := (claim2_upload_error srvEmptyId "https://jamf.example.com"
    ("user", "pw") "/tmp/Foo-2.0.pkg" (by decide)).2.1 rfl (by decide)
  have hok := (claim2_upload_error baseSrv "https://jamf.example.com"
    ("user", "pw") "/tmp/Foo-2.0.pkg" (by decide)).2.2 rfl (by decide)
  exact ⟨by simpa using hfail.1, by simpa using hfail.2, by simpa using hempty,
    hok.2⟩

/-- Claim C3: activation of a found test policy document sets the nested
package id to the new id, the nested package name to the new filename and
the enabled flag to `"false"`, leaves tags, structure and every other
text unchanged, and the update PUT is addressed by the policy's own
`general/id`. -/
theorem claim3_policy_mutation (server : String) (root : XML) (p : String)
    (pkg : String) (doc : XML) (h : activateDoc root (some p) pkg = some doc) :
    doc.findtext pathPkgId = some p ∧
    doc.findtext pathPkgName = some pkg ∧
    doc.findtext pathEnabled = some "false" ∧
    doc.stripText = root.stripText ∧
    (∀ q : List String, q ≠ pathPkgId → q ≠ pathEnabled → q ≠ pathPkgName →
      doc.findtext q = root.findtext q) ∧
    policyPutUrl server doc =
      jssBase server ++ "policies/id/" ++
        pyFormat (root.findtext ["general", "id"]) := by
  unfold activateDoc at h
  cases h1 : root.setTextPath pathPkgId (pyFormat (some p)) with
  | none => rw [h1] at h; simp at h
  | some r1 =>
    rw [h1] at h
    simp only [Option.some_bind] at h
    cases h2 : r1.setTextPath pathEnabled "false" with
    | none => rw [h2] at h; simp at h
    | some r2 =>
      rw [h2] at h
      simp only [Option.some_bind] at h
      have hA := XML.setTextPath_findtext_self root pathPkgId _ r1 h1
      have hB := XML.setTextPath_findtext_self r1 pathEnabled _ r2 h2
      have hC := XML.setTextPath_findtext_self r2 pathPkgName _ doc h
      have hframe : ∀ q : List String, q ≠ pathPkgId → q ≠ pathEnabled →
          q ≠ pathPkgName → doc.findtext q = root.findtext q := by
        intro q hq1 hq2 hq3
        rw [XML.setTextPath_frame r2 pathPkgName pkg doc q h hq3,
          XML.setTextPath_frame r1 pathEnabled "false" r2 q h2 hq2,
          XML.setTextPath_frame root pathPkgId (pyFormat (some p)) r1 q h1 hq1]
      refine ⟨?_, hC, ?_, ?_, hframe, ?_⟩
      · rw [XML.setTextPath_frame r2 pathPkgName pkg doc pathPkgId h (by decide),
          XML.setTextPath_frame r1 pathEnabled "false" r2 pathPkgId h2 (by decide)]
        exact hA
      · rw [XML.setTextPath_frame r2 pathPkgName pkg doc pathEnabled h (by decide)]
        exact hB
      · rw [XML.setTextPath_stripText r2 pathPkgName pkg doc h,
          XML.setTextPath_stripText r1 pathEnabled "false" r2 h2,
          XML.setTextPath_stripText root pathPkgId (pyFormat (some p)) r1 h1]
      · unfold policyPutUrl
        rw [hframe ["general", "id"] (by decide) (by decide) (by decide)]

/-- Witness for C3 at the specification's example: package id `5` and
`enabled=true` become id `42`, name `Foo-2.0.pkg`, `enabled=false`, with
`general/id` untouched. -/
theorem claim3_policy_mutation_witness :
    activateDoc exPolicy (some "42") "Foo-2.0.pkg" = some exPolicyOut ∧
    exPolicyOut.findtext pathPkgId = some "42" ∧
    exPolicyOut.findtext pathPkgName = some "Foo-2.0.pkg" ∧
    exPolicyOut.findtext pathEnabled = some "false" ∧
    exPolicyOut.stripText = exPolicy.stripText ∧
    exPolicyOut.findtext ["general", "id"] = exPolicy.findtext ["general", "id"] ∧
    policyPutUrl "https://jamf.example.com" exPolicyOut =
      jssBase "https://jamf.example.com" ++ "policies/id/" ++
        pyFormat (exPolicy.findtext ["general", "id"]) := by
  have h := claim3_policy_mutation "https://jamf.example.com" exPolicy "42"
    "Foo-2.0.pkg" exPolicyOut rfl
  exact ⟨rfl, h.1, h.2.1, h.2.2.1, h.2.2.2.1,
    h.2.2.2.2.1 ["general", "id"] (by decide) (by decide) (by decide),
    h.2.2.2.2.2⟩


theorem main_of_upload_zero (srv : Server) (fs : FS) (summary0 : Option Summary)
    (server : String) (auth : String × String) (pkg_path : String)
    (h : (upload srv server auth pkg_path).2 = .ok (.intVal 0)) :
    main srv fs summary0 true server auth pkg_path =
      { summary := none, trace := (upload srv server auth pkg_path).1,
        copies := [], outcome := .ok () } := by
  simp only [main]
  rw [if_neg (by simp)]
  rw [h]
  simp [pyNe0]

/-- Claim C5: a non-200 policy lookup ends the workflow successfully with
the sentinel `0` (a value distinct from every string policy id), no
policy PUT is issued, and `main` leaves the summary unset. -/
theorem claim5_policy_absent (srv : Server) (fs : FS)
    (summary0 : Option Summary) (server : String) (auth : String × String)
    (pkg_path : String) (m : Nat)
    (h1 : srv.checkStatus ≠ 200) (h2 : srv.curlExit = 0)
    (h3 : srv.curlBody.findtext ["id"] ≠ some "")
    (h4 : (reconcile srv.putStatus (metaUrl server (srv.curlBody.findtext ["id"]))
            (metaData (srv.curlBody.findtext ["id"]) srv.today)).2 = .ok m)
    (h5 : srv.policyGetStatus ≠ 200) :
    (upload srv server auth pkg_path).2 = .ok (.intVal 0) ∧
    (∀ u : String, Effect.putPolicy u ∉ (upload srv server auth pkg_path).1) ∧
    (∀ s : String, (PyVal.intVal 0 : PyVal) ≠ PyVal.strVal s) ∧
    (main srv fs summary0 true server auth pkg_path).summary = none ∧
    (main srv fs summary0 true server auth pkg_path).outcome = .ok () := by
  have hup := upload_no_policy srv server auth pkg_path m h1 h2 h3 h4 h5
  have hzero : (upload srv server auth pkg_path).2 = .ok (.intVal 0) := by
    rw [hup]
  refine ⟨hzero, ?_, fun s => by simp, ?_, ?_⟩
  · intro u hu
    rw [hup] at hu
    simp only [List.mem_append, List.mem_cons, List.not_mem_nil, or_false] at hu
    rcases hu with ((h | h) | h) | h
    · exact Effect.noConfusion h
    · exact Effect.noConfusion h
    · rcases reconcileGo_trace_mem srv.putStatus _ _ 11 1 (Effect.putPolicy u) h
        with h' | h' <;> exact Effect.noConfusion h'
    · exact Effect.noConfusion h
  · rw [main_of_upload_zero srv fs summary0 server auth pkg_path hzero]
  · rw [main_of_upload_zero srv fs summary0 server auth pkg_path hzero]

/-- Witness for C5: against `baseSrv` (policy lookup 404) the run returns
the sentinel and `main` records nothing. -/
theorem claim5_policy_absent_witness :
    (upload baseSrv "https://jamf.example.com" ("user", "pw")
      "/tmp/Foo-2.0.pkg").2 = .ok (.intVal 0) ∧
    Effect.putPolicy "x" ∉
      (upload baseSrv "https://jamf.example.com" ("user", "pw")
        "/tmp/Foo-2.0.pkg").1 ∧
    (main baseSrv fsNone none true "https://jamf.example.com" ("user", "pw")
      "/tmp/Foo-2.0.pkg").summary = none ∧
    (main baseSrv fsNone none true "https://jamf.example.com" ("user", "pw")
      "/tmp/Foo-2.0.pkg").outcome = .ok () := by
  have h := claim5_policy_absent baseSrv fsNone none "https://jamf.example.com"
    ("user", "pw") "/tmp/Foo-2.0.pkg" 1 (by decide) rfl (by decide) rfl (by decide)
  exact ⟨h.1, h.2.1 "x", h.2.2.2.1, h.2.2.2.2⟩

/-- Claim C6: a policy-update PUT status other than 201 raises a fatal
error immediately whose message carries the PUT URL and the status code,
and exactly one policy PUT appears in the trace (no retry). -/
theorem claim6_policy_update_fatal (srv : Server) (server : String)
    (auth : String × String) (pkg_path : String) (m : Nat) (doc : XML)
    (h1 : srv.checkStatus ≠ 200) (h2 : srv.curlExit = 0)
    (h3 : srv.curlBody.findtext ["id"] ≠ some "")
    (h4 : (reconcile srv.putStatus (metaUrl server (srv.curlBody.findtext ["id"]))
            (metaData (srv.curlBody.findtext ["id"]) srv.today)).2 = .ok m)
    (h5 : srv.policyGetStatus = 200)
    (h6 : activateDoc srv.policyGetBody (srv.curlBody.findtext ["id"])
            (basename pkg_path) = some doc)
    (h7 : srv.policyPutStatus ≠ 201) :
    (upload srv server auth pkg_path).2 =
      .error (.processorError
        ("Test policy " ++ policyPutUrl server doc ++ " update failed: " ++
          toString srv.policyPutStatus)) ∧
    (upload srv server auth pkg_path).1.countP isPutPolicy = 1 := by
  have hup := upload_policy_put_fail srv server auth pkg_path m doc
    h1 h2 h3 h4 h5 h6 h7
  constructor
  · rw [hup]
  · rw [hup]
    dsimp only []
    rw [List.countP_append, List.countP_append]
    have hmid : (reconcile srv.putStatus
        (metaUrl server (srv.curlBody.findtext ["id"]))
        (metaData (srv.curlBody.findtext ["id"]) srv.today)).1.countP
          isPutPolicy = 0 := by
      rw [List.countP_eq_zero]
      intro e he
      rcases reconcileGo_trace_mem srv.putStatus _ _ 11 1 e he with h | h <;>
        simp [h, isPutPolicy]
    rw [hmid]
    simp [isPutPolicy]

/-- Witness for C6: a server accepting everything but the policy PUT,
which returns 409. -/
theorem claim6_policy_update_fatal_witness :
    (upload srvPutFail "https://jamf.example.com" ("user", "pw")
      "/tmp/Foo-2.0.pkg").2 =
      .error (.processorError
        ("Test policy " ++ policyPutUrl "https://jamf.example.com" exPolicyOut123 ++
          " update failed: " ++ toString srvPutFail.policyPutStatus)) ∧
    (upload srvPutFail "https://jamf.example.com" ("user", "pw")
      "/tmp/Foo-2.0.pkg").1.countP isPutPolicy = 1 := by
  have h := claim6_policy_update_fatal srvPutFail "https://jamf.example.com"
    ("user", "pw") "/tmp/Foo-2.0.pkg" 1 exPolicyOut123
    (by decide) rfl (by decide) rfl rfl rfl (by decide)
  exact ⟨h.1, h.2⟩


/-- Claim C8: the local mirror copy writes nothing when no directory is
configured, when the directory is missing, or when the destination file
exists; otherwise it copies the artifact; and a failing copy never
changes the run's outcome or summary. -/
theorem claim8_local_copy (fs : FS) (pkg_path : String) (srv : Server)
    (summary0 : Option Summary) (pkgExists : Bool) (server : String)
    (auth : String × String) (b : Bool) :
    (fs.local_path = none → copy_local fs pkg_path = []) ∧
    (∀ lp, fs.local_path = some lp →
      fs.pathExists (lp ++ "Packages/") = false →
      copy_local fs pkg_path = []) ∧
    (∀ lp, fs.local_path = some lp →
      fs.pathExists (lp ++ "Packages/") = true →
      fs.pathExists (lp ++ "Packages/" ++ basename pkg_path) = true →
      copy_local fs pkg_path = []) ∧
    (∀ lp, fs.local_path = some lp →
      fs.pathExists (lp ++ "Packages/") = true →
      fs.pathExists (lp ++ "Packages/" ++ basename pkg_path) = false →
      copy_local fs pkg_path =
        if fs.copyOk then [lp ++ "Packages/" ++ basename pkg_path] else []) ∧
    ((main srv { fs with copyOk := b } summary0 pkgExists server auth
        pkg_path).outcome =
      (main srv fs summary0 pkgExists server auth pkg_path).outcome ∧
     (main srv { fs with copyOk := b } summary0 pkgExists server auth
        pkg_path).summary =
      (main srv fs summary0 pkgExists server auth pkg_path).summary) := by
  refine ⟨?_, ?_, ?_, ?_, ?_⟩
  · intro h
    simp [copy_local, h]
  · intro lp hlp hdir
    simp [copy_local, hlp, hdir]
  · intro lp hlp hdir hdest
    simp [copy_local, hlp, hdir, hdest]
  · intro lp hlp hdir hdest
    simp [copy_local, hlp, hdir, hdest]
  · constructor <;>
    · simp only [main]
      cases pkgExists with
      | false => rfl
      | true =>
        rw [if_neg (by simp), if_neg (by simp)]
        cases hup : (upload srv server auth pkg_path).2 with
        | error e => rfl
        | ok v =>
          by_cases hv : pyNe0 v
          · simp [hv]
          · simp [hv]

/-- Witness for C8 at concrete filesystems: unconfigured path, missing
directory, existing destination, and a performed copy. -/
theorem claim8_local_copy_witness :
    copy_local fsNone "/tmp/Foo-2.0.pkg" = [] ∧
    copy_local fsNoDir "/tmp/Foo-2.0.pkg" = [] ∧
    copy_local fsDestExists "/tmp/Foo-2.0.pkg" = [] ∧
    copy_local fsCopy "/tmp/Foo-2.0.pkg" = ["/mnt/dp/Packages/Foo-2.0.pkg"] ∧
    (main baseSrv { fsCopy with copyOk := false } none true
      "https://jamf.example.com" ("user", "pw") "/tmp/Foo-2.0.pkg").outcome =
      (main baseSrv fsCopy none true "https://jamf.example.com" ("user", "pw")
        "/tmp/Foo-2.0.pkg").outcome := by
  refine ⟨?_, ?_, ?_, ?_, ?_⟩
  · exact (claim8_local_copy fsNone "/tmp/Foo-2.0.pkg" baseSrv none true
      "https://jamf.example.com" ("user", "pw") true).1 rfl
  · exact (claim8_local_copy fsNoDir "/tmp/Foo-2.0.pkg" baseSrv none true
      "https://jamf.example.com" ("user", "pw") true).2.1 "/mnt/dp/" rfl rfl
  · exact (claim8_local_copy fsDestExists "/tmp/Foo-2.0.pkg" baseSrv none true
      "https://jamf.example.com" ("user", "pw") true).2.2.1 "/mnt/dp/" rfl rfl rfl
  · have h := (claim8_local_copy fsCopy "/tmp/Foo-2.0.pkg" baseSrv none true
      "https://jamf.example.com" ("user", "pw") true).2.2.2.1 "/mnt/dp/" rfl
      (by decide) (by decide)
    simpa using h
  · exact (claim8_local_copy fsCopy "/tmp/Foo-2.0.pkg" baseSrv none true
      "https://jamf.example.com" ("user", "pw") false).2.2.2.2.1

/-- Claim C9: the "already present" and "no policy" outcomes both return
the identical sentinel `.intVal 0`, and a run ending in that sentinel
performs no local copy and sets no summary. -/
theorem claim9_sentinels (srv srv2 : Server) (fs : FS)
    (summary0 : Option Summary) (server : String) (auth : String × String)
    (pkg_path : String) (m : Nat) :
    (srv.checkStatus = 200 →
      (upload srv server auth pkg_path).2 = .ok (.intVal 0)) ∧
    (srv2.checkStatus ≠ 200 → srv2.curlExit = 0 →
      srv2.curlBody.findtext ["id"] ≠ some "" →
      (reconcile srv2.putStatus (metaUrl server (srv2.curlBody.findtext ["id"]))
        (metaData (srv2.curlBody.findtext ["id"]) srv2.today)).2 = .ok m →
      srv2.policyGetStatus ≠ 200 →
      (upload srv2 server auth pkg_path).2 = .ok (.intVal 0)) ∧
    ((upload srv server auth pkg_path).2 = .ok (.intVal 0) →
      (main srv fs summary0 true server auth pkg_path).copies = [] ∧
      (main srv fs summary0 true server auth pkg_path).summary = none) := by
  refine ⟨?_, ?_, ?_⟩
  · intro h
    rw [upload_present srv server auth pkg_path h]
  · intro h1 h2 h3 h4 h5
    rw [upload_no_policy srv2 server auth pkg_path m h1 h2 h3 h4 h5]
  · intro h
    rw [main_of_upload_zero srv fs summary0 server auth pkg_path h]
    exact ⟨rfl, rfl⟩

/-- Witness for C9: the two sentinel runs against concrete servers, and
the resulting `main` behaviour. -/
theorem claim9_sentinels_witness :
    (upload srvPresent "https://jamf.example.com" ("user", "pw")
      "/tmp/Foo-2.0.pkg").2 = .ok (.intVal 0) ∧
    (upload baseSrv "https://jamf.example.com" ("user", "pw")
      "/tmp/Foo-2.0.pkg").2 = .ok (.intVal 0) ∧
    (main srvPresent fsNone none true "https://jamf.example.com" ("user", "pw")
      "/tmp/Foo-2.0.pkg").copies = [] ∧
    (main srvPresent fsNone none true "https://jamf.example.com" ("user", "pw")
      "/tmp/Foo-2.0.pkg").summary = none := by
  have h1 := (claim9_sentinels srvPresent baseSrv fsNone none
    "https://jamf.example.com" ("user", "pw") "/tmp/Foo-2.0.pkg" 1).1 rfl
  have h2 := (claim9_sentinels srvPresent baseSrv fsNone none
    "https://jamf.example.com" ("user", "pw") "/tmp/Foo-2.0.pkg" 1).2.1
    (by decide) rfl (by decide) rfl (by decide)
  have h3 := (claim9_sentinels srvPresent baseSrv fsNone none
    "https://jamf.example.com" ("user", "pw") "/tmp/Foo-2.0.pkg" 1).2.2 h1
  exact ⟨h1, h2, h3.1, h3.2⟩

/-- Claim C10: after every run the summary key is present exactly when
the package-path check passed and `upload` returned a value passing the
`!= 0` test, and the result never depends on any pre-existing summary. -/
theorem claim10_summary_lifecycle (srv : Server) (fs : FS)
    (summary0 : Option Summary) (pkgExists : Bool) (server : String)
    (auth : String × String) (pkg_path : String) :
    (main srv fs summary0 pkgExists server auth pkg_path).summary.isSome =
      (pkgExists && activatedResult (upload srv server auth pkg_path).2) ∧
    main srv fs summary0 pkgExists server auth pkg_path =
      main srv fs none pkgExists server auth pkg_path := by
  constructor
  · simp only [main]
    cases pkgExists with
    | false => rfl
    | true =>
      rw [if_neg (by simp)]
      cases hup : (upload srv server auth pkg_path).2 with
      | error e => rfl
      | ok v =>
        by_cases hv : pyNe0 v
        · simp [hv, activatedResult]
        · simp [hv, activatedResult]
  · rfl

end JPCImporter
